import Mathlib

/-!
Verification of the Airfind BLE scanner core: the advertisement
classification and proximity-estimation engine (`RealBLEService`) and the
scanner screen's registry/favorites logic.  Every definition below is a
shallow embedding of the corresponding TypeScript function; byte strings
are lists of `Fin 256`, JavaScript strings are Lean `String`s or `List Char`
after case folding, and machine floats are modelled by `ℝ`.
-/

/-- A single byte, as stored in a Node `Buffer`. -/
abbrev Byte := Fin 256

/-- One lowercase hexadecimal digit, as produced by `Buffer.toString('hex')`:
digits `0`-`9` are code points 48+n, digits `a`-`f` are 87+n. -/
def hexDigit (n : ℕ) : Char :=
  if n < 10 then Char.ofNat (48 + n) else Char.ofNat (87 + n)

/-- The two lowercase hex digits of one byte. -/
def hexByte (b : Byte) : List Char := [hexDigit (b.val / 16), hexDigit (b.val % 16)]

/-- `Buffer.toString('hex')`: the whole byte sequence rendered as lowercase hex. -/
def hexEncode (bs : List Byte) : List Char := bs.flatMap hexByte

/-- `String.prototype.toLowerCase()` on the ASCII data handled by the app. -/
def lowerChars (s : String) : List Char := s.toList.map Char.toLower

/-- `String.prototype.toUpperCase()` on the ASCII data handled by the app. -/
def upperChars (s : String) : List Char := s.toList.map Char.toUpper

/-- `hay.includes(pat)` for JavaScript strings: `pat` occurs contiguously in
`hay`.  Argument order: the pattern first, then the searched text. -/
def charsInclude (pat : List Char) : List Char → Bool
  | [] => pat.isEmpty
  | c :: rest => pat.isPrefixOf (c :: rest) || charsInclude pat rest

/-- The base64 alphabet used by `Buffer.toString('base64')`. -/
def base64Table : List Char :=
  "ABCDEFGHIJKLMNOPQRSTUVWXYZabcdefghijklmnopqrstuvwxyz0123456789+/".toList

/-- One base64 digit (index into the alphabet). -/
def base64Digit (n : ℕ) : Char := base64Table.getD n 'A'

/-- Base64 rendering of a byte list, three input bytes per four output
characters, padded with `=`. -/
def base64Chunks : List Byte → List Char
  | [] => []
  | [b1] => [base64Digit (b1.val / 4), base64Digit (b1.val % 4 * 16), '=', '=']
  | [b1, b2] =>
      [base64Digit (b1.val / 4), base64Digit (b1.val % 4 * 16 + b2.val / 16),
       base64Digit (b2.val % 16 * 4), '=']
  | b1 :: b2 :: b3 :: rest =>
      base64Digit (b1.val / 4) :: base64Digit (b1.val % 4 * 16 + b2.val / 16) ::
      base64Digit (b2.val % 16 * 4 + b3.val / 64) :: base64Digit (b3.val % 64) ::
      base64Chunks rest

/-- The base64 string a `react-native-ble-plx` `Device.manufacturerData`
field carries for the given payload bytes. -/
def base64Encode (bs : List Byte) : String := ⟨base64Chunks bs⟩

/-- The closed device-category enumeration, `BLEDevice['type']` in
`types/ble` (`'airtag' | 'iphone' | 'android' | 'headphones' | 'unknown'`). -/
inductive DeviceType where
  | airtag
  | iphone
  | android
  | headphones
  | unknown
deriving DecidableEq, Repr

/-- The fields of a `react-native-ble-plx` `Device` that the service reads.
`manufacturerData` is carried as the decoded payload bytes; where the source
consumes the base64 string itself we apply `base64Encode`. -/
structure Device where
  id : String
  name : Option String
  localName : Option String
  rssi : Option ℤ
  serviceUUIDs : Option (List String)
  manufacturerData : Option (List Byte)

/-- JavaScript `a || dflt` on an optional string: `null`, `undefined` and
the empty string are falsy and fall through to the default. -/
def stringOr (a : Option String) (dflt : String) : String :=
  match a with
  | some s => if s = "" then dflt else s
  | none => dflt

/-- `device.rssi || -100` from `processBLEDevice`: a missing reading and
the numeric sentinel `0` are both falsy and become `-100`. -/
def rssiOrDefault (r : Option ℤ) : ℤ :=
  match r with
  | some v => if v = 0 then -100 else v
  | none => -100

/-- `parseManufacturerData(data, manufacturerId)`: render the payload as hex
and return it when the hex string starts with the requested manufacturer id
(compared lowercase); otherwise `null`. -/
def parseManufacturerData (data : List Byte) (manufacturerId : List Char) :
    Option (List Char) :=
  let hex := hexEncode data
  if List.isPrefixOf (manufacturerId.map Char.toLower) (hex.map Char.toLower) then
    some hex
  else none

/-- The Find My service UUID literal from `isAirTag`. -/
def findMyServiceUUID : String := "7DFC9000-7D1C-4951-86AA-8D9728F8D66C"

/-- `isAirTag(manufacturerData, serviceUUIDs)`: Apple hex prefix `004c`, and
either a service UUID containing the Find My UUID or the type-marker byte
`12` at hex offset 4 (byte offset 2) in a payload of at least 4 bytes. -/
def isAirTag (manufacturerData : List Char) (serviceUUIDs : List String) : Bool :=
  let hasAppleData := List.isPrefixOf ("004c".toList) manufacturerData
  let hasFindMyService := serviceUUIDs.any fun uuid =>
    charsInclude (upperChars findMyServiceUUID) (uuid.toList.map Char.toUpper)
  let hasAirTagPattern := decide (8 ≤ manufacturerData.length) &&
    ((manufacturerData.drop 4).take 2 == "12".toList)
  hasAppleData && (hasFindMyService || hasAirTagPattern)

/-- The Handoff/Continuity service UUID literal from `isIPhone`. -/
def handoffServiceUUID : String := "D0611E78-BBB4-4591-A5F8-487910AE4366"

/-- The AirDrop service UUID literal from `isIPhone`. -/
def airdropServiceUUID : String := "7BA94D80-5DAD-4544-8CF4-370E39BB1CA0"

/-- `isIPhone(manufacturerData, serviceUUIDs, name)`: a Handoff or AirDrop
service UUID, or a lowercased name containing `iphone` or `ios`.  The
`manufacturerData` argument is accepted and, as in the source, unused. -/
def isIPhone (manufacturerData : List Char) (serviceUUIDs : List String)
    (name : List Char) : Bool :=
  let hasHandoff := serviceUUIDs.any fun uuid =>
    charsInclude (upperChars handoffServiceUUID) (uuid.toList.map Char.toUpper)
  let hasAirDrop := serviceUUIDs.any fun uuid =>
    charsInclude (upperChars airdropServiceUUID) (uuid.toList.map Char.toUpper)
  let nameIndicatesIPhone :=
    charsInclude ("iphone".toList) name || charsInclude ("ios".toList) name
  hasHandoff || hasAirDrop || nameIndicatesIPhone

/-- The audio-profile UUID list from `isAudioDevice` (sink, source, hands-free). -/
def audioServiceUUIDs : List String :=
  ["0000110B-0000-1000-8000-00805F9B34FB",
   "0000110A-0000-1000-8000-00805F9B34FB",
   "0000111E-0000-1000-8000-00805F9B34FB"]

/-- `isAudioDevice(serviceUUIDs, name)`. -/
def isAudioDevice (serviceUUIDs : List String) (name : List Char) : Bool :=
  let hasAudioService := serviceUUIDs.any fun uuid =>
    audioServiceUUIDs.any fun audioUUID =>
      charsInclude (upperChars audioUUID) (uuid.toList.map Char.toUpper)
  let nameIndicatesAudio :=
    charsInclude ("airpods".toList) name || charsInclude ("headphones".toList) name ||
    charsInclude ("speaker".toList) name || charsInclude ("beats".toList) name
  hasAudioService || nameIndicatesAudio

/-- `isAndroidDevice(manufacturerData, name)`.  The source hands this check
the raw base64 string (not the hex rendering); a `null` or empty string is
falsy and returns `false` before the name is consulted. -/
def isAndroidDevice (manufacturerData : Option String) (name : List Char) : Bool :=
  match manufacturerData with
  | none => false
  | some md =>
    if md.toList.isEmpty then false
    else
      let androidManufacturerIds : List String := ["00e0", "0075", "001d"]
      let hasAndroidManufacturer := androidManufacturerIds.any fun i =>
        List.isPrefixOf (lowerChars i) (lowerChars md)
      let nameIndicatesAndroid :=
        charsInclude ("android".toList) name || charsInclude ("pixel".toList) name ||
        charsInclude ("samsung".toList) name
      hasAndroidManufacturer || nameIndicatesAndroid

/-- `(device.localName || device.name || '').toLowerCase()`, the name value
`identifyDeviceType` matches against. -/
def classifierName (device : Device) : List Char :=
  lowerChars (stringOr device.localName (stringOr device.name ""))

/-- `identifyDeviceType(device)`: Apple payloads are tested first (AirTag
before iPhone), then audio, then Android, then unknown.  The guard
`if (manufacturerData)` is falsy for a missing payload and for the empty
base64 string, i.e. an empty byte list. -/
def identifyDeviceType (device : Device) : DeviceType :=
  let name := classifierName device
  let serviceUUIDs := device.serviceUUIDs.getD []
  let fallThrough : DeviceType :=
    if isAudioDevice serviceUUIDs name then .headphones
    else if isAndroidDevice (device.manufacturerData.map base64Encode) name then .android
    else .unknown
  match device.manufacturerData with
  | some md =>
    if md.isEmpty then fallThrough
    else
      match parseManufacturerData md ("004c".toList) with
      | some appleManufacturerData =>
        if isAirTag appleManufacturerData serviceUUIDs then .airtag
        else if isIPhone appleManufacturerData serviceUUIDs name then .iphone
        else fallThrough
      | none => fallThrough
  | none => fallThrough

/-- `Buffer.readUInt16LE(0)`: the first two bytes as a little-endian u16;
`none` models the `RangeError` thrown on a buffer shorter than two bytes. -/
def readUInt16LE : List Byte → Option ℕ
  | b0 :: b1 :: _ => some (b0.val + 256 * b1.val)
  | _ => none

/-- The manufacturer-id-to-name table from `extractManufacturer`. -/
def manufacturerMap (manufacturerId : ℕ) : Option String :=
  if manufacturerId = 0x004C then some "Apple"
  else if manufacturerId = 0x00E0 then some "Google"
  else if manufacturerId = 0x0075 then some "Samsung"
  else if manufacturerId = 0x001D then some "Qualcomm"
  else if manufacturerId = 0x000F then some "Broadcom"
  else none

/-- `extractManufacturer(device)`: decode the vendor id little-endian and
look it up; any failure (no payload, short payload, unknown id) degrades to
`'Unknown'`. -/
def extractManufacturer (device : Device) : String :=
  match device.manufacturerData with
  | none => "Unknown"
  | some md =>
    match readUInt16LE md with
    | some manufacturerId => (manufacturerMap manufacturerId).getD "Unknown"
    | none => "Unknown"

/-- `extractBatteryLevel(device)`: the source body never assigns a value and
always returns `undefined`. -/
def extractBatteryLevel (_device : Device) : Option ℕ := none

/-- `calculateDistance(rssi, txPower = -59)`: `-1` for the sentinel `0`,
otherwise `10 ^ ((txPower - rssi) / 20)` clamped to `[0.1, 100]`. -/
noncomputable def calculateDistance (rssi : ℤ) (txPower : ℤ) : ℝ :=
  if rssi = 0 then -1
  else max 0.1 (min 100 ((10 : ℝ) ^ (((txPower : ℝ) - (rssi : ℝ)) / 20)))

/-- The `BLEDevice` record from `types/ble` as produced by the scan pipeline
(`txPower` and `isConnectable` are never set by `processBLEDevice` and are
omitted). -/
structure BLEDevice where
  id : String
  name : String
  type : DeviceType
  distance : ℝ
  signalStrength : ℤ
  isConnected : Bool
  isFavorite : Bool
  lastSeen : ℕ
  batteryLevel : Option ℕ
  manufacturer : String
  serviceUUIDs : List String
  advertisementData : Option (List Byte)

/-- `processBLEDevice(device)`: classify, estimate and package one
advertisement.  `now` models the `new Date()` taken at processing time. -/
noncomputable def processBLEDevice (now : ℕ) (device : Device) : BLEDevice :=
  { id := device.id
    name := stringOr device.localName (stringOr device.name "Unknown Device")
    type := identifyDeviceType device
    distance := calculateDistance (rssiOrDefault device.rssi) (-59)
    signalStrength := rssiOrDefault device.rssi
    isConnected := false
    isFavorite := false
    lastSeen := now
    batteryLevel := extractBatteryLevel device
    manufacturer := extractManufacturer device
    serviceUUIDs := device.serviceUUIDs.getD []
    advertisementData := device.manufacturerData }

/-- The scanner screen's merge (`setDevices` callback in `startScanning`):
replace the first record with the same id, keeping its `isFavorite`;
otherwise append the fresh record at the end. -/
def upsertDevice : List BLEDevice → BLEDevice → List BLEDevice
  | [], fresh => [fresh]
  | d :: rest, fresh =>
    if d.id == fresh.id then { fresh with isFavorite := d.isFavorite } :: rest
    else d :: upsertDevice rest fresh

/-- A whole scan session: fold the advertisement stream (processing
timestamp paired with the raw device) through the pipeline into the
registry, starting from the empty list set by `startScanning`. -/
noncomputable def scanSession (advs : List (ℕ × Device)) : List BLEDevice :=
  advs.foldl (fun reg a => upsertDevice reg (processBLEDevice a.1 a.2)) []

/-- The in-memory flip from `toggleFavorite`: negate `isFavorite` on every
record whose id matches. -/
def flipFavorite (devices : List BLEDevice) (deviceId : String) : List BLEDevice :=
  devices.map fun d =>
    if d.id == deviceId then { d with isFavorite := !d.isFavorite } else d

/-- The identifier set `toggleFavorite` persists: the ids of the currently
favorited records, in list order. -/
def favoriteIds (devices : List BLEDevice) : List String :=
  (devices.filter fun d => d.isFavorite).map fun d => d.id

/-- The scanner screen's state relevant to favorites: the device list and
the contents of the `ble_favorites` storage key. -/
structure ScannerState where
  devices : List BLEDevice
  storedFavorites : List String

/-- `toggleFavorite(deviceId)`: flip the matching record in memory, then
overwrite storage with the favorite ids of the updated list. -/
def toggleFavorite (s : ScannerState) (deviceId : String) : ScannerState :=
  let updatedDevices := flipFavorite s.devices deviceId
  { devices := updatedDevices, storedFavorites := favoriteIds updatedDevices }

/-- A concrete AirTag-style advertisement: Apple hex prefix `004c`, the
type-marker byte `12` at byte offset 2, no advertised services. -/
def airTagDevice : Device :=
  { id := "tag-1", name := none, localName := none, rssi := some (-70),
    serviceUUIDs := some [], manufacturerData := some [0x00, 0x4c, 0x12, 0x19] }

/-- A concrete advertisement matching both the AirTag payload pattern and the
iPhone name pattern at once. -/
def bothDevice : Device :=
  { id := "x-1", name := none, localName := some "My iPhone", rssi := some (-50),
    serviceUUIDs := none, manufacturerData := some [0x00, 0x4c, 0x12, 0x19] }

/-- A plain advertisement for device id `A` with signal `-70`. -/
def advA : Device :=
  { id := "A", name := some "Gadget", localName := none, rssi := some (-70),
    serviceUUIDs := some [], manufacturerData := none }

/-- A later advertisement for the same id `A` with the stronger signal `-50`. -/
def advB : Device :=
  { id := "A", name := some "Gadget", localName := none, rssi := some (-50),
    serviceUUIDs := some [], manufacturerData := none }

/-- An advertisement whose radio reported no RSSI at all. -/
def advNoRssi : Device :=
  { id := "N", name := none, localName := none, rssi := none,
    serviceUUIDs := none, manufacturerData := none }

/-- An advertisement whose payload carries the little-endian encoding of
vendor id `0x004C` (bytes `4c 00`). -/
def devLE : Device :=
  { id := "L", name := none, localName := none, rssi := some (-60),
    serviceUUIDs := some [], manufacturerData := some [0x4c, 0x00] }

/-- A registry record for id `A` that is currently connected and favorited. -/
def recA : BLEDevice :=
  { id := "A", name := "Gadget", type := .unknown, distance := 1,
    signalStrength := -70, isConnected := true, isFavorite := true, lastSeen := 0,
    batteryLevel := none, manufacturer := "Unknown", serviceUUIDs := [],
    advertisementData := none }

/-- A scanner state whose stored favorites contain an id (`B`) that is absent
from the in-memory device list. -/
def stateA : ScannerState := { devices := [recA], storedFavorites := ["A", "B"] }

lemma upsertDevice_cons (a : BLEDevice) (t : List BLEDevice) (fresh : BLEDevice) :
    upsertDevice (a :: t) fresh =
      if a.id == fresh.id then { fresh with isFavorite := a.isFavorite } :: t
      else a :: upsertDevice t fresh := rfl

lemma upsertDevice_countP_self (reg : List BLEDevice) (fresh : BLEDevice) :
    (upsertDevice reg fresh).countP (fun d => d.id == fresh.id) =
      max 1 (reg.countP (fun d => d.id == fresh.id)) := by
  induction reg with
  | nil => simp [upsertDevice]
  | cons a t ih =>
    rw [upsertDevice_cons]
    by_cases h : (a.id == fresh.id) = true
    · rw [if_pos h]
      simp only [List.countP_cons, h]
      have hhead :
          (({ fresh with isFavorite := a.isFavorite } : BLEDevice).id == fresh.id) = true := by
        simp
      simp only [hhead]
      simp
    · rw [if_neg h]
      simp only [List.countP_cons, ih, h]
      simp

lemma upsertDevice_countP_other (reg : List BLEDevice) (fresh : BLEDevice) (y : String)
    (hy : (fresh.id == y) = false) :
    (upsertDevice reg fresh).countP (fun d => d.id == y) =
      reg.countP (fun d => d.id == y) := by
  induction reg with
  | nil => simp [upsertDevice, hy]
  | cons a t ih =>
    rw [upsertDevice_cons]
    by_cases h : (a.id == fresh.id) = true
    · rw [if_pos h]
      have ha : a.id = fresh.id := by simpa using h
      have hhead : (({ fresh with isFavorite := a.isFavorite } : BLEDevice).id == y) = false := by
        simpa using hy
      simp only [List.countP_cons, hhead, ha, hy]
    · rw [if_neg h]
      simp only [List.countP_cons, ih]

lemma upsertDevice_mem_eq (reg : List BLEDevice) (fresh : BLEDevice)
    (hcount : reg.countP (fun d => d.id == fresh.id) ≤ 1) :
    ∀ d ∈ upsertDevice reg fresh, (d.id == fresh.id) = true →
      ∃ b, d = { fresh with isFavorite := b } := by
  induction reg with
  | nil =>
    intro d hd _
    simp only [upsertDevice, List.mem_singleton] at hd
    exact ⟨fresh.isFavorite, hd⟩
  | cons a t ih =>
    intro d hd hid
    rw [upsertDevice_cons] at hd
    by_cases h : (a.id == fresh.id) = true
    · rw [if_pos h] at hd
      rcases List.mem_cons.mp hd with h1 | h2
      · exact ⟨a.isFavorite, h1⟩
      · exfalso
        have ht : t.countP (fun d => d.id == fresh.id) = 0 := by
          rw [List.countP_cons] at hcount
          simp only [h, if_true] at hcount
          omega
        exact (List.countP_eq_zero.mp ht d h2) hid
    · rw [if_neg h] at hd
      rcases List.mem_cons.mp hd with h1 | h2
      · subst h1; rw [hid] at h; exact absurd rfl h
      · have hct : t.countP (fun d => d.id == fresh.id) ≤ 1 := by
          rw [List.countP_cons] at hcount
          omega
        exact ih hct d h2 hid

lemma upsert_preserves_unique (reg : List BLEDevice) (fresh : BLEDevice)
    (h : ∀ y : String, reg.countP (fun d => d.id == y) ≤ 1) :
    ∀ y : String, (upsertDevice reg fresh).countP (fun d => d.id == y) ≤ 1 := by
  intro y
  by_cases hy : (fresh.id == y) = true
  · have hfy : fresh.id = y := by simpa using hy
    subst hfy
    rw [upsertDevice_countP_self]
    exact max_le le_rfl (h fresh.id)
  · rw [upsertDevice_countP_other reg fresh y (by simpa using hy)]
    exact h y

lemma foldl_upsert_unique (advs : List (ℕ × Device)) :
    ∀ reg : List BLEDevice, (∀ y : String, reg.countP (fun d => d.id == y) ≤ 1) →
      ∀ y : String,
        (advs.foldl (fun reg a => upsertDevice reg (processBLEDevice a.1 a.2)) reg).countP
          (fun d => d.id == y) ≤ 1 := by
  induction advs with
  | nil => intro reg h y; simpa using h y
  | cons a rest ih =>
    intro reg h y
    rw [List.foldl_cons]
    exact ih _ (upsert_preserves_unique reg (processBLEDevice a.1 a.2) h) y

lemma scanSession_unique (advs : List (ℕ × Device)) (y : String) :
    (scanSession advs).countP (fun d => d.id == y) ≤ 1 := by
  unfold scanSession
  exact foldl_upsert_unique advs [] (by simp) y

lemma flipFavorite_involutive (devices : List BLEDevice) (deviceId : String) :
    flipFavorite (flipFavorite devices deviceId) deviceId = devices := by
  induction devices with
  | nil => rfl
  | cons a t ih =>
    have hstep : flipFavorite (flipFavorite (a :: t) deviceId) deviceId =
        (if ((if (a.id == deviceId) = true then { a with isFavorite := !a.isFavorite } else a).id
            == deviceId) = true
         then { (if (a.id == deviceId) = true then { a with isFavorite := !a.isFavorite } else a)
                with isFavorite :=
                  !(if (a.id == deviceId) = true then { a with isFavorite := !a.isFavorite }
                    else a).isFavorite }
         else (if (a.id == deviceId) = true then { a with isFavorite := !a.isFavorite } else a)) ::
          flipFavorite (flipFavorite t deviceId) deviceId := rfl
    rw [hstep, ih]
    by_cases h : (a.id == deviceId) = true
    · simp only [if_pos h]
      have h2 : (({ a with isFavorite := !a.isFavorite } : BLEDevice).id == deviceId) = true := h
      simp only [if_pos h2, Bool.not_not]
    · simp only [if_neg h]

lemma calculateDistance_bounds (s : ℤ) (h : s ≠ 0) :
    0.1 ≤ calculateDistance s (-59) ∧ calculateDistance s (-59) ≤ 100 := by
  unfold calculateDistance
  rw [if_neg h]
  exact ⟨le_max_left _ _, max_le (by norm_num) (min_le_left _ _)⟩

lemma calculateDistance_anti (s₁ s₂ : ℤ) (h₁ : s₁ ≠ 0) (h₂ : s₂ ≠ 0) (h : s₁ ≤ s₂) :
    calculateDistance s₂ (-59) ≤ calculateDistance s₁ (-59) := by
  unfold calculateDistance
  rw [if_neg h₂, if_neg h₁]
  refine max_le_max le_rfl (min_le_min le_rfl ?_)
  refine (Real.rpow_le_rpow_left_iff (by norm_num : (1:ℝ) < 10)).mpr ?_
  have hc : (s₁ : ℝ) ≤ (s₂ : ℝ) := by exact_mod_cast h
  have h59 : ((-59 : ℤ) : ℝ) = -59 := by norm_num
  rw [h59]
  linarith

lemma calculateDistance_ref : calculateDistance (-59) (-59) = 1 := by
  unfold calculateDistance
  rw [if_neg (by norm_num : (-59 : ℤ) ≠ 0)]
  have he : ((((-59 : ℤ)) : ℝ) - (((-59 : ℤ)) : ℝ)) / 20 = 0 := by push_cast; ring
  rw [he, Real.rpow_zero]
  rw [min_eq_right (by norm_num : (1:ℝ) ≤ 100)]
  rw [max_eq_right (by norm_num : (0.1:ℝ) ≤ 1)]

lemma calculateDistance_floor : calculateDistance (-100) (-59) = 100 := by
  unfold calculateDistance
  rw [if_neg (by norm_num : (-100 : ℤ) ≠ 0)]
  have he : ((((-59 : ℤ)) : ℝ) - (((-100 : ℤ)) : ℝ)) / 20 = 41 / 20 := by push_cast; ring
  rw [he]
  have h100 : (100 : ℝ) ≤ (10 : ℝ) ^ ((41 : ℝ) / 20) := by
    have h2 : (100 : ℝ) = (10 : ℝ) ^ (((2 : ℕ)) : ℝ) := by
      rw [Real.rpow_natCast]; norm_num
    rw [h2]
    exact (Real.rpow_le_rpow_left_iff (by norm_num)).mpr (by norm_num)
  rw [min_eq_left h100, max_eq_right (by norm_num : (0.1:ℝ) ≤ 100)]

lemma rssiOrDefault_ne_zero (r : Option ℤ) : rssiOrDefault r ≠ 0 := by
  cases r with
  | none => simp [rssiOrDefault]
  | some v =>
    by_cases hv : v = 0
    · simp [rssiOrDefault, hv]
    · simp [rssiOrDefault, hv]

set_option maxRecDepth 10000 in
lemma toLower_hexDigit : ∀ n : Fin 16, Char.toLower (hexDigit n.val) = hexDigit n.val := by
  decide

lemma map_toLower_hexEncode (bs : List Byte) :
    (hexEncode bs).map Char.toLower = hexEncode bs := by
  induction bs with
  | nil => rfl
  | cons b t ih =>
    have h1 : Char.toLower (hexDigit (b.val / 16)) = hexDigit (b.val / 16) :=
      toLower_hexDigit ⟨b.val / 16, by omega⟩
    have h2 : Char.toLower (hexDigit (b.val % 16)) = hexDigit (b.val % 16) :=
      toLower_hexDigit ⟨b.val % 16, by omega⟩
    simp only [hexEncode, List.flatMap_cons, hexByte, List.map_append, List.map_cons,
      List.map_nil, h1, h2]
    simpa [hexEncode] using ih

set_option maxRecDepth 10000 in
lemma hexPair_00_iff : ∀ b : Byte,
    ((('0' == hexDigit (b.val / 16)) = true) ∧ (('0' == hexDigit (b.val % 16)) = true)) ↔
      b.val = 0 := by
  decide

set_option maxRecDepth 10000 in
lemma hexPair_4c_iff : ∀ b : Byte,
    ((('4' == hexDigit (b.val / 16)) = true) ∧ (('c' == hexDigit (b.val % 16)) = true)) ↔
      b.val = 0x4c := by
  decide

lemma parse_apple_iff (data : List Byte) :
    (parseManufacturerData data ("004c".toList)).isSome = true ↔
      readUInt16LE data = some 0x4C00 := by
  match data with
  | [] => simp [parseManufacturerData, readUInt16LE, hexEncode, List.isPrefixOf]
  | [b0] =>
    simp only [parseManufacturerData, readUInt16LE, map_toLower_hexEncode]
    have h1 : hexEncode [b0] = [hexDigit (b0.val / 16), hexDigit (b0.val % 16)] := rfl
    rw [h1]
    simp [List.isPrefixOf]
  | b0 :: b1 :: rest =>
    simp only [parseManufacturerData, readUInt16LE, map_toLower_hexEncode]
    have hhex : hexEncode (b0 :: b1 :: rest) =
        hexDigit (b0.val / 16) :: hexDigit (b0.val % 16) ::
        hexDigit (b1.val / 16) :: hexDigit (b1.val % 16) :: hexEncode rest := rfl
    rw [hhex]
    have hmid : ("004c".toList.map Char.toLower) = ['0', '0', '4', 'c'] := by decide
    rw [hmid]
    have hcond : (List.isPrefixOf ['0', '0', '4', 'c']
        (hexDigit (b0.val / 16) :: hexDigit (b0.val % 16) ::
         hexDigit (b1.val / 16) :: hexDigit (b1.val % 16) :: hexEncode rest)) = true ↔
        (b0.val = 0 ∧ b1.val = 0x4c) := by
      simp only [List.isPrefixOf, Bool.and_eq_true]
      constructor
      · rintro ⟨ha, hb, hc, hd, -⟩
        exact ⟨(hexPair_00_iff b0).mp ⟨ha, hb⟩, (hexPair_4c_iff b1).mp ⟨hc, hd⟩⟩
      · rintro ⟨h0, h1⟩
        obtain ⟨ha, hb⟩ := (hexPair_00_iff b0).mpr h0
        obtain ⟨hc, hd⟩ := (hexPair_4c_iff b1).mpr h1
        exact ⟨ha, hb, hc, hd, trivial⟩
    by_cases hb : b0.val = 0 ∧ b1.val = 0x4c
    · rw [if_pos (hcond.mpr hb)]
      simp [hb.1, hb.2]
    · rw [if_neg (fun hc => hb (hcond.mp hc))]
      simp only [Option.isSome_none, Bool.false_eq_true, false_iff, Ne, Option.some.injEq]
      intro heq
      have hb0 : b0.val < 256 := b0.isLt
      have hb1 : b1.val < 256 := b1.isLt
      exact hb (by omega)

lemma parse_apple_nil : parseManufacturerData [] ("004c".toList) = none := by decide

lemma classify_tracker_first (dev : Device) (md : List Byte) (appleMD : List Char)
    (hmd : dev.manufacturerData = some md)
    (hparse : parseManufacturerData md ("004c".toList) = some appleMD)
    (hair : isAirTag appleMD (dev.serviceUUIDs.getD []) = true) :
    identifyDeviceType dev = DeviceType.airtag := by
  have hne : md.isEmpty = false := by
    cases md with
    | nil => rw [parse_apple_nil] at hparse; exact absurd hparse (by simp)
    | cons b t => rfl
  unfold identifyDeviceType
  rw [hmd]
  simp only [hne, Bool.false_eq_true, if_false, hparse, hair, if_true]

lemma classify_total (dev : Device) :
    identifyDeviceType dev = DeviceType.airtag ∨ identifyDeviceType dev = DeviceType.iphone ∨
    identifyDeviceType dev = DeviceType.android ∨
    identifyDeviceType dev = DeviceType.headphones ∨
    identifyDeviceType dev = DeviceType.unknown := by
  cases h : identifyDeviceType dev <;> simp

lemma manufacturerMap_apple (n : ℕ) :
    ((manufacturerMap n).getD "Unknown" = "Apple") ↔ n = 0x004C := by
  unfold manufacturerMap
  split_ifs with h1 h2 h3 h4 h5 <;> simp_all

lemma extractManufacturer_apple_iff (dev : Device) (md : List Byte)
    (hmd : dev.manufacturerData = some md) :
    (extractManufacturer dev = "Apple") ↔ readUInt16LE md = some 0x004C := by
  cases hr : readUInt16LE md with
  | none => simp [extractManufacturer, hmd, hr]
  | some n => simp [extractManufacturer, hmd, hr, manufacturerMap_apple]

/-- Claim C1: for every advertisement, `identifyDeviceType` returns exactly
one of the five categories, and rule priority is respected: whenever the
Apple parse succeeds and both the AirTag pattern and the iPhone pattern
match, the result is `airtag`, never `iphone`. -/
theorem C1_classify_total_and_tracker_priority (dev : Device) :
    (identifyDeviceType dev = DeviceType.airtag ∨
     identifyDeviceType dev = DeviceType.iphone ∨
     identifyDeviceType dev = DeviceType.android ∨
     identifyDeviceType dev = DeviceType.headphones ∨
     identifyDeviceType dev = DeviceType.unknown) ∧
    (∀ (md : List Byte) (appleMD : List Char),
      dev.manufacturerData = some md →
      parseManufacturerData md ("004c".toList) = some appleMD →
      isAirTag appleMD (dev.serviceUUIDs.getD []) = true →
      isIPhone appleMD (dev.serviceUUIDs.getD []) (classifierName dev) = true →
      identifyDeviceType dev = DeviceType.airtag) := by
  refine ⟨classify_total dev, ?_⟩
  intro md appleMD hmd hparse hair _hip
  exact classify_tracker_first dev md appleMD hmd hparse hair

/-- Witness for C1 at a concrete advertisement that matches both the AirTag
payload pattern and the iPhone name pattern. -/
theorem C1_witness :
    bothDevice.manufacturerData = some [0x00, 0x4c, 0x12, 0x19] ∧
    parseManufacturerData [0x00, 0x4c, 0x12, 0x19] ("004c".toList) =
      some ("004c1219".toList) ∧
    isAirTag ("004c1219".toList) (bothDevice.serviceUUIDs.getD []) = true ∧
    isIPhone ("004c1219".toList) (bothDevice.serviceUUIDs.getD [])
      (classifierName bothDevice) = true ∧
    identifyDeviceType bothDevice = DeviceType.airtag := by
  refine ⟨rfl, by decide, by decide, by decide, ?_⟩
  exact (C1_classify_total_and_tracker_priority bothDevice).2
    [0x00, 0x4c, 0x12, 0x19] ("004c1219".toList) rfl (by decide) (by decide) (by decide)

/-- Counterexample for C2: the payload `4c 00`, whose first two bytes read as
a little-endian u16 give exactly 0x004C, is rejected by the classifier's
platform-maker test, while the payload `00 4c` (little-endian value 0x4C00)
is accepted; so the test does not match exactly the payloads whose
little-endian vendor id is 0x004C. -/
theorem C2_counterexample :
    readUInt16LE [(0x4c : Byte), 0x00] = some 0x004C ∧
    parseManufacturerData [(0x4c : Byte), 0x00] ("004c".toList) = none ∧
    (parseManufacturerData [(0x00 : Byte), 0x4c] ("004c".toList)).isSome = true ∧
    readUInt16LE [(0x00 : Byte), 0x4c] = some 0x4C00 := by
  refine ⟨by decide, by decide, by decide, by decide⟩

/-- Claim C2 (amended): the decoded vendor id is the little-endian u16 of the
first two payload bytes, and `extractManufacturer` reports `Apple` exactly
when that value is 0x004C; but the classifier's platform-maker test matches
exactly the payloads whose hex rendering starts with `004c`, i.e. whose
little-endian vendor id is 0x4C00 (big-endian 0x004C), not 0x004C. -/
theorem C2_vendor_id_decoding (data : List Byte) :
    ((parseManufacturerData data ("004c".toList)).isSome = true ↔
      readUInt16LE data = some 0x4C00) ∧
    (∀ (b0 b1 : Byte) (rest : List Byte), data = b0 :: b1 :: rest →
      readUInt16LE data = some (b0.val + 256 * b1.val)) ∧
    (∀ dev : Device, dev.manufacturerData = some data →
      (extractManufacturer dev = "Apple" ↔ readUInt16LE data = some 0x004C)) := by
  refine ⟨parse_apple_iff data, ?_, ?_⟩
  · rintro b0 b1 rest rfl
    rfl
  · intro dev hdev
    exact extractManufacturer_apple_iff dev data hdev

/-- Witness for C2 at the concrete little-endian Apple payload `4c 00`. -/
theorem C2_witness :
    devLE.manufacturerData = some [(0x4c : Byte), 0x00] ∧
    (extractManufacturer devLE = "Apple" ↔
      readUInt16LE [(0x4c : Byte), 0x00] = some 0x004C) :=
  ⟨rfl, (C2_vendor_id_decoding [0x4c, 0x00]).2.2 devLE rfl⟩

/-- Counterexample for C3: merging a fresh advertisement for an id whose
stored record is connected overwrites `isConnected` with the freshly
classified record's `false`; the field is not preserved. -/
theorem C3_counterexample :
    recA.isConnected = true ∧
    (upsertDevice [recA] (processBLEDevice 5 advA)).map (fun d => d.isConnected) =
      [false] :=
  ⟨rfl, rfl⟩

/-- Claim C3 (amended): merging a repeat advertisement preserves the stored
record's `isFavorite` but takes every other field, `isConnected` included,
from the freshly classified record, and the pipeline always produces fresh
records with `isConnected = false` and `isFavorite = false`. -/
theorem C3_merge_preserves_favorite :
    (∀ (old : BLEDevice) (rest : List BLEDevice) (fresh : BLEDevice),
      old.id = fresh.id →
      upsertDevice (old :: rest) fresh =
        { fresh with isFavorite := old.isFavorite } :: rest) ∧
    (∀ (now : ℕ) (dev : Device),
      (processBLEDevice now dev).isConnected = false ∧
      (processBLEDevice now dev).isFavorite = false) := by
  constructor
  · intro old rest fresh h
    rw [upsertDevice_cons, if_pos (by simpa using h)]
  · intro now dev
    exact ⟨rfl, rfl⟩

/-- Witness for C3 at the concrete connected record `recA` and a fresh
advertisement for the same id. -/
theorem C3_witness :
    recA.id = (processBLEDevice 5 advA).id ∧
    upsertDevice [recA] (processBLEDevice 5 advA) =
      [{ processBLEDevice 5 advA with isFavorite := recA.isFavorite }] :=
  ⟨rfl, C3_merge_preserves_favorite.1 recA [] (processBLEDevice 5 advA) rfl⟩

/-- Claim C4: for every nonzero signal strength the estimate is
`10 ^ ((-59 - s) / 20)` clamped to `[0.1, 100]`, and the reference input
`-59` yields `1.0` within `0.01`. -/
theorem C4_distance_formula :
    (∀ s : ℤ, s ≠ 0 →
      calculateDistance s (-59) =
        max 0.1 (min 100 ((10 : ℝ) ^ ((-59 - (s : ℝ)) / 20))) ∧
      0.1 ≤ calculateDistance s (-59) ∧ calculateDistance s (-59) ≤ 100) ∧
    |calculateDistance (-59) (-59) - 1| ≤ 0.01 := by
  constructor
  · intro s h
    refine ⟨?_, calculateDistance_bounds s h⟩
    unfold calculateDistance
    rw [if_neg h]
    norm_num
  · rw [calculateDistance_ref]
    norm_num

/-- Witness for C4 at the concrete nonzero signal strength `-59`. -/
theorem C4_witness :
    ((-59 : ℤ) ≠ 0) ∧
    (0.1 ≤ calculateDistance (-59) (-59) ∧ calculateDistance (-59) (-59) ≤ 100) :=
  ⟨by decide, (C4_distance_formula.1 (-59) (by decide)).2⟩

/-- Claim C5: the sentinel signal strength `0` makes the estimator return the
distinguished value `-1`, which no nonzero input can produce (all real
estimates lie in `[0.1, 100]`), and the pipeline caller substitutes the
default `-100` rather than passing `0` on, so processing never fails. -/
theorem C5_distance_unavailable :
    calculateDistance 0 (-59) = -1 ∧
    (∀ s : ℤ, s ≠ 0 → calculateDistance s (-59) ≠ -1) ∧
    (∀ r : Option ℤ, rssiOrDefault r ≠ 0) ∧
    (∀ (now : ℕ) (dev : Device), dev.rssi = some 0 →
      (processBLEDevice now dev).signalStrength = -100 ∧
      (processBLEDevice now dev).distance = calculateDistance (-100) (-59)) := by
  refine ⟨by unfold calculateDistance; rw [if_pos rfl], ?_, rssiOrDefault_ne_zero, ?_⟩
  · intro s h heq
    have hb := (calculateDistance_bounds s h).1
    rw [heq] at hb
    norm_num at hb
  · intro now dev h
    constructor
    · show rssiOrDefault dev.rssi = -100
      rw [h]
      rfl
    · show calculateDistance (rssiOrDefault dev.rssi) (-59) = calculateDistance (-100) (-59)
      rw [h]
      rfl

/-- Witness for C5 at the concrete nonzero signal strength `-70` and a
concrete advertisement reporting the sentinel `0`. -/
theorem C5_witness :
    ((-70 : ℤ) ≠ 0) ∧ calculateDistance (-70) (-59) ≠ -1 :=
  ⟨by decide, C5_distance_unavailable.2.1 (-70) (by decide)⟩

/-- Claim C6: over nonzero signal strengths the estimator is monotonically
non-increasing in the signal strength, and it is deterministic. -/
theorem C6_distance_monotone :
    (∀ s₁ s₂ : ℤ, s₁ ≠ 0 → s₂ ≠ 0 → s₁ ≤ s₂ →
      calculateDistance s₂ (-59) ≤ calculateDistance s₁ (-59)) ∧
    (∀ s t : ℤ, s = t → calculateDistance s (-59) = calculateDistance t (-59)) := by
  refine ⟨calculateDistance_anti, ?_⟩
  intro s t h
  rw [h]

/-- Witness for C6 at the concrete pair `-70 ≤ -50`. -/
theorem C6_witness :
    ((-70 : ℤ) ≠ 0) ∧ ((-50 : ℤ) ≠ 0) ∧ ((-70 : ℤ) ≤ -50) ∧
    calculateDistance (-50) (-59) ≤ calculateDistance (-70) (-59) :=
  ⟨by decide, by decide, by decide,
    C6_distance_monotone.1 (-70) (-50) (by decide) (by decide) (by decide)⟩

/-- Claim C7: after any advertisement sequence followed by two
advertisements with the same id, the registry holds exactly one record for
that id, and it carries the later advertisement's signal strength, distance,
and timestamp. -/
theorem C7_registry_single_record (advs : List (ℕ × Device)) (t1 t2 : ℕ)
    (d1 d2 : Device) (hid : d1.id = d2.id) (_hts : t1 ≤ t2) :
    (scanSession (advs ++ [(t1, d1), (t2, d2)])).countP (fun d => d.id == d1.id) = 1 ∧
    ∀ d ∈ scanSession (advs ++ [(t1, d1), (t2, d2)]), (d.id == d1.id) = true →
      d.signalStrength = rssiOrDefault d2.rssi ∧
      d.distance = calculateDistance (rssiOrDefault d2.rssi) (-59) ∧
      d.lastSeen = t2 := by
  rw [hid]
  have hsplit : scanSession (advs ++ [(t1, d1), (t2, d2)]) =
      upsertDevice (upsertDevice (scanSession advs) (processBLEDevice t1 d1))
        (processBLEDevice t2 d2) := by
    unfold scanSession
    rw [List.foldl_append]
    rfl
  have hu0 : ∀ y : String, (scanSession advs).countP (fun d => d.id == y) ≤ 1 :=
    fun y => scanSession_unique advs y
  have hu1 : ∀ y : String,
      (upsertDevice (scanSession advs) (processBLEDevice t1 d1)).countP
        (fun d => d.id == y) ≤ 1 :=
    upsert_preserves_unique _ _ hu0
  have hfid : (processBLEDevice t2 d2).id = d2.id := rfl
  constructor
  · rw [hsplit]
    have hself := upsertDevice_countP_self
      (upsertDevice (scanSession advs) (processBLEDevice t1 d1)) (processBLEDevice t2 d2)
    rw [hfid] at hself
    rw [hself]
    have h1 := hu1 d2.id
    omega
  · intro d hd hdid
    rw [hsplit] at hd
    have hc : (upsertDevice (scanSession advs) (processBLEDevice t1 d1)).countP
        (fun d => d.id == (processBLEDevice t2 d2).id) ≤ 1 := by
      rw [hfid]
      exact hu1 d2.id
    obtain ⟨b, hb⟩ := upsertDevice_mem_eq _ _ hc d hd (by rw [hfid]; exact hdid)
    subst hb
    exact ⟨rfl, rfl, rfl⟩

/-- Witness for C7: two concrete advertisements for id `A`, signal `-70`
then `-50`, leave one record carrying the second signal and distance. -/
theorem C7_witness :
    advA.id = advB.id ∧ (1 : ℕ) ≤ 2 ∧
    ((scanSession ([] ++ [(1, advA), (2, advB)])).countP
        (fun d => d.id == advA.id) = 1 ∧
     ∀ d ∈ scanSession ([] ++ [(1, advA), (2, advB)]), (d.id == advA.id) = true →
       d.signalStrength = rssiOrDefault advB.rssi ∧
       d.distance = calculateDistance (rssiOrDefault advB.rssi) (-59) ∧
       d.lastSeen = 2) :=
  ⟨rfl, by decide, C7_registry_single_record [] 1 2 advA advB rfl (by decide)⟩

/-- Counterexample for C8: with stored favorites `["A", "B"]` but only the
device `A` in the list, toggling `A` twice restores the device list but
rewrites storage to `["A"]`, dropping the stored id `B`. -/
theorem C8_counterexample :
    (toggleFavorite (toggleFavorite stateA "A") "A").devices = stateA.devices ∧
    (toggleFavorite (toggleFavorite stateA "A") "A").storedFavorites = ["A"] ∧
    stateA.storedFavorites ≠ ["A"] :=
  ⟨rfl, rfl, by decide⟩

/-- Claim C8 (amended): toggling a favorite twice always restores every
record's `isFavorite`; the persisted identifier set is restored exactly when
storage was in sync with the device list (it always ends up equal to the
favorite ids of the in-memory list, so stored ids absent from the list are
dropped). -/
theorem C8_toggle_roundtrip :
    (∀ (devices : List BLEDevice) (deviceId : String),
      flipFavorite (flipFavorite devices deviceId) deviceId = devices) ∧
    (∀ (devices : List BLEDevice) (stored : List String) (deviceId : String),
      stored = favoriteIds devices →
      toggleFavorite (toggleFavorite ⟨devices, stored⟩ deviceId) deviceId =
        ⟨devices, stored⟩) := by
  refine ⟨flipFavorite_involutive, ?_⟩
  intro devices stored deviceId hsync
  unfold toggleFavorite
  simp only [flipFavorite_involutive]
  rw [hsync]

/-- Witness for C8 at a concrete state whose storage matches the list. -/
theorem C8_witness :
    (["A"] = favoriteIds [recA]) ∧
    toggleFavorite (toggleFavorite ⟨[recA], ["A"]⟩ "A") "A" =
      (⟨[recA], ["A"]⟩ : ScannerState) :=
  ⟨rfl, C8_toggle_roundtrip.2 [recA] ["A"] "A" rfl⟩

/-- Claim C9: the concrete advertisement with payload hex `004c1219` and no
advertised services is classified as an AirTag (the Tracker category). -/
theorem C9_airtag_scenario :
    airTagDevice.manufacturerData = some [0x00, 0x4c, 0x12, 0x19] ∧
    hexEncode [0x00, 0x4c, 0x12, 0x19] = "004c1219".toList ∧
    airTagDevice.serviceUUIDs.getD [] = [] ∧
    identifyDeviceType airTagDevice = DeviceType.airtag := by
  refine ⟨rfl, by decide, rfl, by decide⟩

/-- Claim C10: every record the pipeline produces has a distance inside
`[0.1, 100]`; the substituted signal strength is never the sentinel `0`, so
the estimator's `-1` branch is unreachable from the pipeline; and a missing
or sentinel RSSI is stored as `-100` and lands exactly on the upper clamp of
100 meters. -/
theorem C10_pipeline_distance_bounds :
    (∀ (now : ℕ) (dev : Device),
      0.1 ≤ (processBLEDevice now dev).distance ∧
      (processBLEDevice now dev).distance ≤ 100) ∧
    (∀ r : Option ℤ, rssiOrDefault r ≠ 0) ∧
    (∀ (now : ℕ) (dev : Device), dev.rssi = none ∨ dev.rssi = some 0 →
      (processBLEDevice now dev).signalStrength = -100 ∧
      (processBLEDevice now dev).distance = 100) := by
  refine ⟨?_, rssiOrDefault_ne_zero, ?_⟩
  · intro now dev
    exact calculateDistance_bounds (rssiOrDefault dev.rssi)
      (rssiOrDefault_ne_zero dev.rssi)
  · intro now dev h
    have hr : rssiOrDefault dev.rssi = -100 := by
      rcases h with h | h <;> rw [h] <;> rfl
    constructor
    · show rssiOrDefault dev.rssi = -100
      exact hr
    · show calculateDistance (rssiOrDefault dev.rssi) (-59) = 100
      rw [hr]
      exact calculateDistance_floor

/-- Witness for C10 at a concrete advertisement with no RSSI reading. -/
theorem C10_witness :
    (advNoRssi.rssi = none ∨ advNoRssi.rssi = some 0) ∧
    ((processBLEDevice 0 advNoRssi).signalStrength = -100 ∧
     (processBLEDevice 0 advNoRssi).distance = 100) :=
  ⟨Or.inl rfl, C10_pipeline_distance_bounds.2.2 0 advNoRssi (Or.inl rfl)⟩
